import Mathlib

/-
Verification of the WIPP Python client (wipp_client/wipp.py): a shallow
embedding of its pagination engine, record-key mapping, entity field
(de)serialization, URL builder, and create/delete operations, with theorems
about pagination ordering, error behaviour, and round-tripping.

Conventions of the embedding:
* Python values that may be None are Option values.
* A Python function call that raises is an Except.error; a function whose
  body contains no raise and whose network layer is mocked is total.
* Machine integers do not overflow in any code path modelled here, so page
  indices are Int (callers can pass negatives) and counts are Nat.
-/

set_option maxRecDepth 4000

/-! ## Exceptions

wipp.py defines WippAuthenticationError, WippForbiddenError and
WippNotFoundError; each has the signature def init (self, message, errors),
i.e. two required positional arguments after self.  Calling a constructor
with a wrong number of positional arguments raises TypeError in Python
before the exception object exists, so a raise site with the wrong arity
raises TypeError instead of the intended exception. -/

inductive WippExc : Type
  | authentication
  | forbidden
  | notFound
deriving DecidableEq

/-- Number of required positional arguments (after self) of each exception
class constructor, read off the three init definitions in wipp.py
(message, errors). -/
def exc_init_required_args : WippExc → Nat
  | WippExc.authentication => 2
  | WippExc.forbidden => 2
  | WippExc.notFound => 2

/-- Errors a modelled client call can raise: either a successfully
constructed Wipp exception, or a Python TypeError (from a bad constructor
call, or from summing a list with None). -/
inductive PyError : Type
  | typeError
  | raised (c : WippExc)
deriving DecidableEq

/-- Evaluate a raise site that constructs exception class c with
argsGiven positional arguments: the exception is raised only when the
arity matches, otherwise the construction itself raises TypeError. -/
def py_raise (c : WippExc) (argsGiven : Nat) : PyError :=
  if argsGiven = exc_init_required_args c then PyError.raised c else PyError.typeError

/-! ## Record-key mapping

Lines 331-335 of wipp.py: key = plural, except csv and genericFile. -/

/-- The key under which a paginated envelope nests records of the given
resource kind (wipp.py get_entities_page, the csv / genericFile fix). -/
def record_key_for (plural : String) : String :=
  if plural = "csv" then "csvs"
  else if plural = "genericFile" then "genericFiles"
  else plural

/-! ## Pagination engine over a mocked service

The network layer is mocked: a MockService fixes the HTTP status and
pagination metadata of the summary request and, for every page index, the
HTTP status and parsed entity list of that page request.  The entity
parsing and record-key lookup inside get_entities_page (lines 328-355) are
modelled abstractly by pageEntities; record_key_for and the field
(de)serialization are modelled separately above and below. -/

structure MockService (E : Type) where
  summaryStatus : Nat
  totalPages : Nat
  pageSize : Nat
  pageStatus : Int → Nat
  pageEntities : Int → List E

/-- wipp.py get_entities_summary: on HTTP 200 returns the pair
(totalPages, pageSize) from the envelope metadata; any other status falls
off the end of the function and returns None. -/
def get_entities_summary (E : Type) (s : MockService E) : Option (Nat × Nat) :=
  if s.summaryStatus = 200 then some (s.totalPages, s.pageSize) else none

/-- wipp.py get_entities_page: on HTTP 200 returns the parsed entity list
of the page; any other status (401, 403, 404 included) falls off the end
of the function and returns None.  The body contains no raise statement. -/
def get_entities_page (E : Type) (s : MockService E) (index : Int) : Option (List E) :=
  if s.pageStatus index = 200 then some (s.pageEntities index) else none

/-- The page indices the walker passes to get_entities_page:
range(total_pages) in wipp.py get_entities_all_pages. -/
def walk_requests (total : Nat) : List Int :=
  (List.range total).map (fun n => Int.ofNat n)

/-- wipp.py get_entities_all_pages: unpacks the summary tuple (a None
summary raises TypeError: cannot unpack non-iterable NoneType), then
fetches every page index in range(total_pages) in order. -/
def get_entities_all_pages (E : Type) (s : MockService E) :
    Except PyError (List (Option (List E))) :=
  match get_entities_summary E s with
  | none => Except.error PyError.typeError
  | some (total, _) =>
      Except.ok ((walk_requests total).map (get_entities_page E s))

/-- Python sum(pages, []) as used by wipp.py get_entities: a left fold of
list concatenation starting from []; adding None to a list raises
TypeError at the first None page. -/
def py_sum_from (E : Type) (acc : List E) : List (Option (List E)) → Except PyError (List E)
  | [] => Except.ok acc
  | none :: _ => Except.error PyError.typeError
  | some l :: rest => py_sum_from E (acc ++ l) rest

/-- sum(pages, []) with the empty initial accumulator. -/
def py_sum (E : Type) (pages : List (Option (List E))) : Except PyError (List E) :=
  py_sum_from E [] pages

/-- wipp.py get_entities: flatten all pages with sum(pages, []). -/
def get_entities (E : Type) (s : MockService E) : Except PyError (List E) :=
  (get_entities_all_pages E s).bind (py_sum E)

/-! ## create and delete -/

/-- wipp.py create_entity, with the network mocked by the response status
and the parsed response body: 201 returns the parsed entity; 401, 403 and
404 are raise sites constructing the exception classes with zero
positional arguments; any other status logs and returns None. -/
def create_entity (E : Type) (status : Nat) (parsed : E) : Except PyError (Option E) :=
  if status = 201 then Except.ok (some parsed)
  else if status = 401 then Except.error (py_raise WippExc.authentication 0)
  else if status = 403 then Except.error (py_raise WippExc.forbidden 0)
  else if status = 404 then Except.error (py_raise WippExc.notFound 0)
  else Except.ok none

/-- wipp.py delete_entity, with the network mocked by the response status:
on 200 or 204 it logs the deletion and returns None; every other status
falls off the end of the function and returns None as well.  The Bool
records whether the success log line ran (the only observable difference
between the branches); the Python return value is None in both. -/
def delete_entity (status : Nat) : Except PyError Bool :=
  if status = 200 ∨ status = 204 then Except.ok true else Except.ok false

/-! ## Helper lemmas for the pagination engine -/

lemma py_sum_from_map_some (E : Type) (l : List (List E)) (acc : List E) :
    py_sum_from E acc (l.map some) = Except.ok (acc ++ l.flatten) := by
  induction l generalizing acc with
  | nil => simp [py_sum_from]
  | cons hd tl ih => simp [py_sum_from, ih, List.append_assoc]

lemma py_sum_from_of_none_mem (E : Type) (pages : List (Option (List E)))
    (h : none ∈ pages) (acc : List E) :
    py_sum_from E acc pages = Except.error PyError.typeError := by
  induction pages generalizing acc with
  | nil => simp at h
  | cons hd tl ih =>
      match hd with
      | none => simp [py_sum_from]
      | some l =>
          have htl : none ∈ tl := by
            rcases List.mem_cons.mp h with h1 | h1
            · exact absurd h1 (by simp)
            · exact h1
          simp [py_sum_from, ih htl]

lemma get_entities_of_all_ok (E : Type) (s : MockService E)
    (hs : s.summaryStatus = 200) (hp : ∀ i, s.pageStatus i = 200) :
    get_entities E s = Except.ok (((walk_requests s.totalPages).map s.pageEntities).flatten) := by
  have hpage : get_entities_page E s = fun i => some (s.pageEntities i) :=
    funext fun i => by simp [get_entities_page, hp i]
  have hmap : (walk_requests s.totalPages).map (get_entities_page E s)
      = ((walk_requests s.totalPages).map s.pageEntities).map some := by
    rw [hpage, List.map_map]
    rfl
  simp only [get_entities, get_entities_all_pages, get_entities_summary, hs, if_pos]
  simp only [hmap, Except.bind, py_sum, py_sum_from_map_some, List.nil_append]

/-! ## Concrete mocked services used by witnesses and counterexamples -/

/-- A well-behaved two-page service: page i holds [10*i, 10*i+1]. -/
def c1_mock : MockService Nat :=
  { summaryStatus := 200, totalPages := 2, pageSize := 3,
    pageStatus := fun _ => 200,
    pageEntities := fun i => [i.toNat * 10, i.toNat * 10 + 1] }

/-- A five-page service whose page 2 answers HTTP 403. -/
def c2_mock : MockService Nat :=
  { summaryStatus := 200, totalPages := 5, pageSize := 1,
    pageStatus := fun i => if i = 2 then 403 else 200,
    pageEntities := fun i => [i.toNat] }

/-- A service whose pages 0, 1, 2 answer HTTP 401, 403, 404. -/
def c3_mock : MockService Nat :=
  { summaryStatus := 200, totalPages := 3, pageSize := 1,
    pageStatus := fun i => if i = 0 then 401 else if i = 1 then 403 else 404,
    pageEntities := fun _ => [7] }

/-! ## Claim theorems -/

/-- C1: for every mocked paginated service with P pages whose summary and
page fetches answer 200, get_entities returns the concatenation of the
entities of pages 0 through P-1 (pages in increasing index order, each
page in its original order, walk_requests being the increasing index list
0..P-1); every requested index is nonnegative; and when the summary
reports 0 total pages the result is the empty sequence, no page is
fetched, in particular page -1 is never requested and nothing is thrown. -/
theorem c1_pagination_walker_order (E : Type) (s : MockService E)
    (hs : s.summaryStatus = 200) (hp : ∀ i, s.pageStatus i = 200) :
    get_entities E s = Except.ok (((walk_requests s.totalPages).map s.pageEntities).flatten)
    ∧ (∀ i ∈ walk_requests s.totalPages, 0 ≤ i)
    ∧ (s.totalPages = 0 →
        get_entities E s = Except.ok []
        ∧ walk_requests s.totalPages = []
        ∧ (-1 : Int) ∉ walk_requests s.totalPages) := by
  refine ⟨get_entities_of_all_ok E s hs hp, ?_, ?_⟩
  · intro i hi
    simp only [walk_requests, List.mem_map] at hi
    rcases hi with ⟨m, _, rfl⟩
    exact Int.natCast_nonneg m
  · intro h0
    refine ⟨?_, ?_, ?_⟩
    · rw [get_entities_of_all_ok E s hs hp, h0]
      simp [walk_requests]
    · rw [h0]
      simp [walk_requests]
    · rw [h0]
      simp [walk_requests]

/-- Witness for C1: on the concrete two-page service the walker returns
page 0 then page 1, flattened. -/
theorem c1_pagination_walker_order_witness :
    get_entities Nat c1_mock = Except.ok [0, 1, 10, 11] := by
  have h := c1_pagination_walker_order Nat c1_mock rfl (fun _ => rfl)
  exact h.1.trans (by rfl)

/-- C2 counterexample: on a five-page service whose page 2 answers 403,
get_entities fails with TypeError (get_entities_page returns None for the
403 page and sum(pages, []) adds None to a list), not with the
ForbiddenError the claim states; WippForbiddenError is never raised. -/
theorem c2_counterexample :
    get_entities Nat c2_mock = Except.error PyError.typeError
    ∧ PyError.typeError ≠ PyError.raised WippExc.forbidden := by
  exact ⟨rfl, by decide⟩

/-- C2 amended: if the summary answers 200 and some page below the total
page count answers a non-200 status, the whole walk fails (no partial
sequence is returned), but with Python TypeError - from summing the None
page into the accumulator list - rather than with the typed error of that
page's status. -/
theorem c2_failed_page_aborts_with_type_error (E : Type) (s : MockService E)
    (hs : s.summaryStatus = 200) (n : Nat) (hn : n < s.totalPages)
    (hf : s.pageStatus (n : Int) ≠ 200) :
    get_entities E s = Except.error PyError.typeError := by
  have hmem : (n : Int) ∈ walk_requests s.totalPages := by
    simp only [walk_requests, List.mem_map]
    exact ⟨n, List.mem_range.mpr hn, rfl⟩
  have hnone : none ∈ (walk_requests s.totalPages).map (get_entities_page E s) := by
    refine List.mem_map.mpr ⟨(n : Int), hmem, ?_⟩
    simp [get_entities_page, hf]
  simp only [get_entities, get_entities_all_pages, get_entities_summary, hs, if_pos]
  simp only [Except.bind, py_sum]
  exact py_sum_from_of_none_mem E _ hnone []

/-- Witness for the amended C2 at the concrete failing service. -/
theorem c2_failed_page_aborts_with_type_error_witness :
    get_entities Nat c2_mock = Except.error PyError.typeError :=
  c2_failed_page_aborts_with_type_error Nat c2_mock rfl 2 (by decide) (by decide)

/-- C3 counterexample: at HTTP statuses 401, 403 and 404 the single-page
fetch returns the None default (its body has no raise statement), instead
of failing with AuthenticationError / ForbiddenError / NotFoundError as
the claim states. -/
theorem c3_counterexample :
    get_entities_page Nat c3_mock 0 = none
    ∧ get_entities_page Nat c3_mock 1 = none
    ∧ get_entities_page Nat c3_mock 2 = none := by
  exact ⟨rfl, rfl, rfl⟩

/-- C3 amended: for every resource service and page index whose response
status is not 200 (401, 403 and 404 included), get_entities_page returns
the null default None and raises no typed error. -/
theorem c3_non_200_returns_none (E : Type) (s : MockService E) (i : Int)
    (h : s.pageStatus i ≠ 200) : get_entities_page E s i = none := by
  simp [get_entities_page, h]

/-- Witness for the amended C3 at the concrete 401 page. -/
theorem c3_non_200_returns_none_witness :
    get_entities_page Nat c3_mock 0 = none :=
  c3_non_200_returns_none Nat c3_mock 0 (by decide)

/-- C4 counterexample: create_entity on HTTP 500 (a status other than
201/401/403/404) logs and returns the null result None normally, instead
of failing with a RequestFailed error as the claim states (no
RequestFailed class exists in wipp.py at all). -/
theorem c4_counterexample : create_entity Nat 500 7 = Except.ok none := rfl

/-- C4 amended: for every HTTP response status other than 201, 401, 403
and 404, create_entity logs the raw response and returns the null result
None normally; it raises nothing (in particular no RequestFailed, which
does not exist in the code). -/
theorem c4_other_status_returns_none (E : Type) (status : Nat) (parsed : E)
    (h1 : status ≠ 201) (h2 : status ≠ 401) (h3 : status ≠ 403) (h4 : status ≠ 404) :
    create_entity E status parsed = Except.ok none := by
  simp [create_entity, h1, h2, h3, h4]

/-- Witness for the amended C4 at status 500. -/
theorem c4_other_status_returns_none_witness :
    create_entity Nat 500 7 = Except.ok none :=
  c4_other_status_returns_none Nat 500 7 (by decide) (by decide) (by decide) (by decide)

/-- C5: the record-key mapping returns csvs for kind csv, genericFiles
for kind genericFile, and every other resource-kind string unchanged. -/
theorem c5_record_key_mapping :
    record_key_for "csv" = "csvs"
    ∧ record_key_for "genericFile" = "genericFiles"
    ∧ ∀ k : String, k ≠ "csv" → k ≠ "genericFile" → record_key_for k = k := by
  refine ⟨rfl, rfl, ?_⟩
  intro k h1 h2
  simp [record_key_for, h1, h2]

/-- Witness for C5: a kind other than csv and genericFile maps to itself. -/
theorem c5_record_key_mapping_witness : record_key_for "plugins" = "plugins" :=
  c5_record_key_mapping.2.2 "plugins" (by decide) (by decide)

/-- C8 counterexample: delete_entity on HTTP 404 returns normally (the
Python function falls off the end and returns None) instead of failing
with NotFoundError as the claim states, so success is not limited to
statuses 200 and 204. -/
theorem c8_counterexample : delete_entity 404 = Except.ok false := rfl

/-- C8 amended: delete_entity returns normally (a void None return) for
every HTTP status; 200 and 204 are exactly the statuses on which the
success log line runs, and no status makes it fail with any error. -/
theorem c8_delete_never_fails (status : Nat) :
    (delete_entity status = Except.ok true ↔ (status = 200 ∨ status = 204))
    ∧ ∀ e : PyError, delete_entity status ≠ Except.error e := by
  constructor
  · by_cases h : status = 200 ∨ status = 204 <;> simp [delete_entity, h]
  · intro e
    by_cases h : status = 200 ∨ status = 204 <;> simp [delete_entity, h]

/-- C9: each of the three exception class constructors requires two
positional arguments (message, errors) while the raise sites in
create_entity supply zero, so on HTTP 401, 403 and 404 the raise
expression itself fails with TypeError, and no call of create_entity ever
raises one of the typed Wipp errors. -/
theorem c9_exception_constructor_arity (E : Type) (status : Nat) (parsed : E) :
    (∀ c : WippExc, exc_init_required_args c = 2)
    ∧ (∀ c : WippExc, py_raise c 0 = PyError.typeError)
    ∧ (status = 401 ∨ status = 403 ∨ status = 404 →
        create_entity E status parsed = Except.error PyError.typeError)
    ∧ (∀ c : WippExc, create_entity E status parsed ≠ Except.error (PyError.raised c)) := by
  refine ⟨fun c => by cases c <;> rfl, fun c => by cases c <;> rfl, ?_, ?_⟩
  · rintro (rfl | rfl | rfl) <;> rfl
  · intro c
    by_cases h1 : status = 201
    · simp [create_entity, h1]
    · by_cases h2 : status = 401
      · simp [create_entity, h1, h2, py_raise, exc_init_required_args]
      · by_cases h3 : status = 403
        · simp [create_entity, h1, h2, h3, py_raise, exc_init_required_args]
        · by_cases h4 : status = 404
          · simp [create_entity, h1, h2, h3, h4, py_raise, exc_init_required_args]
          · simp [create_entity, h1, h2, h3, h4]

/-- Witness for C9 at HTTP 401: the 401 raise site of create_entity
reaches TypeError, not WippAuthenticationError. -/
theorem c9_exception_constructor_arity_witness :
    create_entity Nat 401 7 = Except.error PyError.typeError :=
  (c9_exception_constructor_arity Nat 401 7).2.2.1 (Or.inl rfl)

/-! ## URL builder

wipp.py build_request_url parses the base API route once (the constructor
stores parsed_api_route), merges parse_qs(base.query) with extra_query via
dict.update, and joins the path as os.path.join(base.path, path_prefix,
plural, path_suffix) on the posix host.  The query is modelled at the
parsed multi-dict level that parse_qs / urlencode(doseq=True) operate on,
and the URL as its path and query components. -/

/-- Python b.startswith(sep) for the single-character posix separator. -/
def startsWithSlash (s : String) : Bool := s.data.head? = some '/'

/-- Python path.endswith(sep) for the single-character posix separator. -/
def endsWithSlash (s : String) : Bool := s.data.getLast? = some '/'

/-- One component step of posixpath.join: an absolute component resets the
path; a component appends directly when the path so far is empty or ends
with the separator; otherwise one separator is inserted. -/
def os_path_join_step (path b : String) : String :=
  if startsWithSlash b = true then b
  else if path = "" ∨ endsWithSlash path = true then path ++ b
  else path ++ "/" ++ b

/-- posixpath.join(path, *components). -/
def os_path_join (path : String) (components : List String) : String :=
  components.foldl os_path_join_step path

/-- Python dict.update (and the dict union operator, which has the same
key semantics) on insertion-ordered dicts with unique keys: keys of the
left dict keep their position but take the right value on collision; keys
only in the right dict are appended in the right dict's order. -/
def dict_update (V : Type) (l r : List (String × V)) : List (String × V) :=
  (l.map (fun kv => (kv.1, (r.lookup kv.1).getD kv.2)))
    ++ r.filter (fun kv => (l.lookup kv.1).isNone)

structure ParsedUrl where
  path : String
  query : List (String × List String)
deriving DecidableEq

/-- wipp.py build_request_url over the already-parsed base URL. -/
def build_request_url (base : ParsedUrl) (plural pathPre pathSuf : String)
    (extraQuery : List (String × List String)) : ParsedUrl :=
  { path := os_path_join base.path [pathPre, plural, pathSuf],
    query := dict_update (List String) base.query extraQuery }

/-! ## Helper lemmas for strings and the URL builder -/

lemma string_data_ne_nil (s : String) (h : s ≠ "") : s.data ≠ [] := by
  intro hd
  exact h (String.ext (hd.trans rfl))

lemma append_ne_empty_right (s t : String) (ht : t ≠ "") : s ++ t ≠ "" := by
  intro hd
  have hdata : (s ++ t).data = [] := by rw [hd]
  rw [String.data_append] at hdata
  rcases List.append_eq_nil.mp hdata with ⟨-, h2⟩
  exact ht (String.ext (h2.trans rfl))

lemma endsWithSlash_append (s t : String) (ht : t ≠ "") :
    endsWithSlash (s ++ t) = endsWithSlash t := by
  unfold endsWithSlash
  rw [String.data_append, List.getLast?_append]
  rcases hx : t.data.getLast? with - | c
  · exact absurd (List.getLast?_eq_none_iff.mp hx) (string_data_ne_nil t ht)
  · simp [Option.or]

lemma dict_update_nil (V : Type) (l : List (String × V)) : dict_update V l [] = l := by
  simp [dict_update, List.lookup]

lemma os_path_join_step_empty_component (path : String) (h0 : path ≠ "")
    (h1 : endsWithSlash path = false) : os_path_join_step path "" = path ++ "/" := by
  have hsw : startsWithSlash "" = false := by decide
  simp [os_path_join_step, hsw, h0, h1, String.append_empty]

lemma os_path_join_step_after_slash (path b : String) (hb : startsWithSlash b = false) :
    os_path_join_step (path ++ "/") b = path ++ "/" ++ b := by
  have hend : endsWithSlash (path ++ "/") = true :=
    (endsWithSlash_append path "/" (by decide)).trans (by decide)
  simp [os_path_join_step, hb, hend]

/-- C7 counterexample: with empty path components an empty path suffix
still contributes a separator: the built path for base path api and kind
plugins is api/plugins/ with a trailing separator, not api/plugins as the
claim states. -/
theorem c7_counterexample :
    (build_request_url { path := "api", query := [] } "plugins" "" "" []).path
      = "api/plugins/"
    ∧ ("api/plugins/" : String) ≠ "api" ++ "/" ++ "plugins" := by
  exact ⟨rfl, by decide⟩

/-- C7 amended: for every base URL whose path is nonempty and does not
already end in a separator and every resource kind that is nonempty, not
absolute and does not end in a separator, build_request_url with empty
path components and empty extra query yields the base path joined to the
resource kind by exactly one separator followed by one trailing separator
(contributed by the empty path suffix), with the base query preserved. -/
theorem c7_trailing_separator (base : ParsedUrl) (plural : String)
    (hb0 : base.path ≠ "") (hb1 : endsWithSlash base.path = false)
    (hp0 : plural ≠ "") (hp1 : startsWithSlash plural = false)
    (hp2 : endsWithSlash plural = false) :
    build_request_url base plural "" "" [] =
      { path := base.path ++ "/" ++ plural ++ "/", query := base.query } := by
  have hne : base.path ++ "/" ++ plural ≠ "" := append_ne_empty_right _ _ hp0
  have hend : endsWithSlash (base.path ++ "/" ++ plural) = false :=
    (endsWithSlash_append _ _ hp0).trans hp2
  unfold build_request_url os_path_join
  rw [dict_update_nil]
  simp only [List.foldl]
  rw [os_path_join_step_empty_component base.path hb0 hb1,
    os_path_join_step_after_slash base.path plural hp1,
    os_path_join_step_empty_component _ hne hend]

/-- Witness for the amended C7 at a concrete base URL with a query. -/
theorem c7_trailing_separator_witness :
    build_request_url { path := "api", query := [("a", ["1"])] } "plugins" "" "" []
      = { path := "api/plugins/", query := [("a", ["1"])] } := by
  have h := c7_trailing_separator { path := "api", query := [("a", ["1"])] } "plugins"
    (by decide) (by decide) (by decide) (by decide) (by decide)
  exact h.trans (by decide)

/-! ## The page parameter of get_entities_page -/

/-- Values a query parameter can carry: the page index is an int, other
caller-supplied parameters are typically strings. -/
inductive QueryVal : Type
  | int (i : Int)
  | str (s : String)
deriving DecidableEq

/-- The query dict get_entities_page passes to build_request_url (wipp.py
line 322): the dict union of the page binding with the caller's
extra_query, in which the right operand wins on key collision. -/
def page_query (index : Int) (extraQuery : List (String × QueryVal)) :
    List (String × QueryVal) :=
  dict_update QueryVal [("page", QueryVal.int index)] extraQuery

/-- C10: when the caller's extra_query binds the key page, the query sent
by get_entities_page carries the caller's value for page instead of the
supplied page index, so a caller-supplied query parameter silently
overrides the pagination walker's page index. -/
theorem c10_extra_query_overrides_page (index : Int)
    (extraQuery : List (String × QueryVal)) (v : QueryVal)
    (h : extraQuery.lookup "page" = some v) :
    (page_query index extraQuery).lookup "page" = some v
    ∧ (v ≠ QueryVal.int index →
        (page_query index extraQuery).lookup "page" ≠ some (QueryVal.int index)) := by
  have hfirst : (page_query index extraQuery).lookup "page" = some v := by
    simp [page_query, dict_update, h, List.lookup]
  exact ⟨hfirst, fun hv hc => hv (Option.some.inj (hfirst.symm.trans hc))⟩

/-- Witness for C10: an extra_query binding page to 0 overrides the
walker's index 3. -/
theorem c10_extra_query_overrides_page_witness :
    (page_query 3 [("page", QueryVal.int 0)]).lookup "page" = some (QueryVal.int 0) :=
  (c10_extra_query_overrides_page 3 [("page", QueryVal.int 0)] (QueryVal.int 0) rfl).1

/-! ## Entity field (de)serialization

WippEntity.Config sets alias_generator = snake_case_to_lower_camel_case,
so every pydantic model field is read from and written to the wire under
its lowerCamelCase alias: dict(by_alias=True) emits alias keys, and
parsing populates fields by alias lookup (population by field name is the
pydantic default off).  Field values are modelled abstractly. -/

/-- Python str.capitalize on a character sequence: first character
uppercased, the rest lowercased. -/
def py_capitalize : List Char → List Char
  | [] => []
  | c :: cs => c.toUpper :: cs.map Char.toLower

/-- Python string.split on the underscore character: every underscore
separates, empty pieces are kept. -/
def split_underscore : List Char → List (List Char)
  | [] => [[]]
  | c :: rest =>
      match split_underscore rest with
      | [] => [[]]
      | w :: ws => if c = '_' then [] :: w :: ws else (c :: w) :: ws

/-- wipp.py snake_case_to_lower_camel_case: split on underscores, drop
empty words, keep the first word and capitalize the remaining words.  (On
a string with no nonempty word the Python indexing words[0] would raise
IndexError; no field name modelled here is of that form, and that case is
mapped to the empty string.) -/
def snake_case_to_lower_camel_case (s : String) : String :=
  match (split_underscore s.data).filter (fun w => w ≠ []) with
  | [] => ""
  | w :: ws => String.mk (w ++ (ws.map py_capitalize).flatten)

/-- Serialization of an entity: dict(by_alias=True) emits every model
field under its alias with its value (None when an optional field is
absent). -/
def serialize_entity (V : Type) (fields : List String) (vals : String → Option V) :
    List (String × Option V) :=
  fields.map (fun f => (snake_case_to_lower_camel_case f, vals f))

/-- Parsing of one model field from a wire record: the field's alias is
looked up in the record; a missing key leaves the field as None. -/
def parse_field (V : Type) (wire : List (String × Option V)) (f : String) : Option V :=
  match wire.lookup (snake_case_to_lower_camel_case f) with
  | some v => v
  | none => none

/-- Model fields of WippAbstractCollection (wipp.py lines 44-53). -/
def wippAbstractCollectionFields : List String :=
  ["id", "name", "creation_date", "locked", "source_job"]

/-- Model fields of WippImageCollection: the inherited collection header
plus the image-import bookkeeping fields (wipp.py lines 62-73). -/
def wippImageCollectionFields : List String :=
  wippAbstractCollectionFields ++
    ["images_total_size", "import_method", "metadata_files_total_size", "notes",
     "number_importing_images", "number_of_images", "number_of_import_errors",
     "number_of_metadata_files", "pattern", "source_catalog"]

/-- Model fields of WippImage (wipp.py lines 80-86). -/
def wippImageFields : List String :=
  ["file_name", "original_file_name", "file_size", "importing", "import_error"]

/-- Model fields of WippCsvCollection (wipp.py lines 95-100). -/
def wippCsvCollectionFields : List String :=
  wippAbstractCollectionFields ++
    ["csv_total_size", "number_importing_csv", "number_of_csv_files",
     "number_of_import_errors"]

/-- Model fields of WippCsv (wipp.py lines 107-113). -/
def wippCsvFields : List String :=
  ["file_name", "original_file_name", "file_size", "importing", "import_error"]

/-- Model fields of WippGenericDataCollection (wipp.py lines 122-128). -/
def wippGenericDataCollectionFields : List String :=
  wippAbstractCollectionFields ++
    ["description", "file_total_size", "metadata", "number_of_files", "type"]

/-- Model fields of WippGenericDataFile (wipp.py lines 135-139). -/
def wippGenericDataFileFields : List String :=
  ["file_name", "original_file_name", "file_size"]

/-- Model fields of WippPlugin (wipp.py lines 148-163).  The line
inputs = list is an unannotated class attribute whose value is the
builtin type list; pydantic v1 treats type-valued unannotated attributes
as untouched, so inputs is a plain class attribute, not a model field,
and does not take part in (de)serialization. -/
def wippPluginFields : List String :=
  ["author", "citation", "container_id", "creation_date", "description", "id",
   "institution", "name", "outputs", "repository", "title", "ui", "version",
   "website"]

/-! ## Round-trip lemma -/

lemma parse_serialize_round_trip (V : Type) (fields : List String)
    (hnd : (fields.map snake_case_to_lower_camel_case).Nodup)
    (vals : String → Option V) (f : String) (hf : f ∈ fields) :
    parse_field V (serialize_entity V fields vals) f = vals f := by
  induction fields with
  | nil => simp at hf
  | cons g rest ih =>
      rcases List.mem_cons.mp hf with rfl | hmem
      · simp [parse_field, serialize_entity, List.lookup]
      · have hnd1 := (List.nodup_cons.mp hnd).1
        have hnd2 := (List.nodup_cons.mp hnd).2
        have hne : (snake_case_to_lower_camel_case f
            == snake_case_to_lower_camel_case g) = false := by
          apply beq_eq_false_iff_ne.mpr
          intro he
          exact hnd1 (he ▸ List.mem_map_of_mem _ hmem)
        have ihh := ih hnd2 hmem
        simpa [parse_field, serialize_entity, List.lookup, hne] using ihh

/-- C6: field names are translated to lowerCamelCase on the wire (for
example creation_date to creationDate), and for every concrete entity
shape, parsing the serialized wire record reproduces every model field's
value - required fields and optional fields alike, whether present or
absent - because the camelCase aliases of each shape's fields are
pairwise distinct. -/
theorem c6_serialize_parse_round_trip (V : Type) (vals : String → Option V) (f : String) :
    snake_case_to_lower_camel_case "creation_date" = "creationDate"
    ∧ (f ∈ wippImageCollectionFields →
        parse_field V (serialize_entity V wippImageCollectionFields vals) f = vals f)
    ∧ (f ∈ wippImageFields →
        parse_field V (serialize_entity V wippImageFields vals) f = vals f)
    ∧ (f ∈ wippCsvCollectionFields →
        parse_field V (serialize_entity V wippCsvCollectionFields vals) f = vals f)
    ∧ (f ∈ wippCsvFields →
        parse_field V (serialize_entity V wippCsvFields vals) f = vals f)
    ∧ (f ∈ wippGenericDataCollectionFields →
        parse_field V (serialize_entity V wippGenericDataCollectionFields vals) f = vals f)
    ∧ (f ∈ wippGenericDataFileFields →
        parse_field V (serialize_entity V wippGenericDataFileFields vals) f = vals f)
    ∧ (f ∈ wippPluginFields →
        parse_field V (serialize_entity V wippPluginFields vals) f = vals f) := by
  refine ⟨by decide, ?_, ?_, ?_, ?_, ?_, ?_, ?_⟩ <;>
    exact fun hf => parse_serialize_round_trip V _ (by decide) vals f hf

/-- Witness for C6: round trip of the container_id field of a plugin. -/
theorem c6_serialize_parse_round_trip_witness :
    parse_field Nat (serialize_entity Nat wippPluginFields (fun _ => some 0))
      "container_id" = some 0 :=
  (c6_serialize_parse_round_trip Nat (fun _ => some 0) "container_id").2.2.2.2.2.2.2
    (by decide)
